import Mathlib

/-!
Verification development for the mqtt-tail live-tail stream controller
(`src/subscriber.js`).  The controller is shallowly embedded: the setup part
of `connect()` (building the broker URL and connect options, compiling the
filter regexes) becomes `connectSetup`, and the event handlers registered on
the mqtt client become one step function `handle` over an explicit `RunState`.
External collaborators are abstracted: the regex engine is a parameter of
type `String → Except String (String → Bool)` (compilation either yields a
matcher or an error message), the formatter is the `format` field of
`Config`, and the file system is a map `String → Option String`.  Terminal
color decoration (chalk) is identity on the text and is dropped from the
embedding; every stderr write site is kept as a constructor of `StatusLine`
carrying its data, with `render` giving the literal text of the source.
-/

namespace MqttTail

/-- MessageEvent delivered by the protocol engine: topic, payload (decoded
as text, as `payload.toString()` does in the handler), QoS and retain flag. -/
structure Msg where
  topic : String
  payload : String
  qos : Nat
  retain : Bool
deriving DecidableEq

/-- Outcome of the three-stage filter pipeline in the message handler of
`src/subscriber.js` lines 166-177: dropped at one of the three early
returns, or passed through to formatting. -/
inductive FilterOutcome where
  | droppedRetained
  | droppedTopic
  | droppedPayload
  | pass
deriving DecidableEq

/-- Runtime configuration of the controller, fixed once `connect()` has
finished its setup phase: the compiled filters, the count limit, the
formatter, the broker URL and the subscription request data. -/
structure Config where
  brokerUrl : String
  topics : List String
  qos : Nat
  /-- the allow-retained flag; `opts.retained` is `false` exactly when
  `--no-retained` was passed. -/
  retained : Bool
  topicFilter : Option (String → Bool)
  payloadFilter : Option (String → Bool)
  /-- `maxMessages`; `none` models the `Infinity` branch of
  `opts.count ? parseInt(opts.count, 10) : Infinity`. -/
  maxMessages : Option Int
  format : Msg → String
  verbose : Bool

/-- Retained-drop stage: `opts.retained === false && packet.retain`
(line 166). -/
def retainedDrop (cfg : Config) (m : Msg) : Bool :=
  !cfg.retained && m.retain

/-- Topic filter stage: `topicFilter && !topicFilter.test(topic)`
(line 170). -/
def topicFilterFails (cfg : Config) (m : Msg) : Bool :=
  match cfg.topicFilter with
  | some f => !(f m.topic)
  | none => false

/-- Payload filter stage: `payloadFilter && !payloadFilter.test(payload.toString())`
(line 174). -/
def payloadFilterFails (cfg : Config) (m : Msg) : Bool :=
  match cfg.payloadFilter with
  | some f => !(f m.payload)
  | none => false

/-- The three early returns of the message handler, in source order. -/
def filterMessage (cfg : Config) (m : Msg) : FilterOutcome :=
  if retainedDrop cfg m then .droppedRetained
  else if topicFilterFails cfg m then .droppedTopic
  else if payloadFilterFails cfg m then .droppedPayload
  else .pass

/-- A message is eligible when it survives all three filter stages. -/
def eligibleB (cfg : Config) (m : Msg) : Bool :=
  decide (filterMessage cfg m = FilterOutcome.pass)

/-- Comparison `messageCount >= maxMessages` of line 185, with
`maxMessages = Infinity` modelled by `none` (the comparison is then never
true). -/
def limitReached (max : Option Int) (c : Nat) : Bool :=
  match max with
  | none => false
  | some n => decide (n ≤ (c : Int))

/-- Translation of `opts.count ? parseInt(opts.count, 10) : Infinity`
(line 71): an absent count and the (falsy) count 0 both yield `Infinity`. -/
def mkMaxMessages (count : Option Int) : Option Int :=
  match count with
  | none => none
  | some n => if n = 0 then none else some n

/-- Status-channel output, one constructor per `process.stderr.write` site
of `src/subscriber.js`, carrying the data interpolated at that site.
Debug lines are the `dbg` sites, emitted only under `--verbose`. -/
inductive StatusLine where
  | debug (text : String)
  | connecting (url : String) (asUser : String)
  | connected (url : String)
  | reconnected (url : String)
  | subscribeError (message : String)
  | watching (topic : String) (qos : Nat)
  | blank
  | errorLine (message : String) (code : Option String) (errno : Option String)
  | lostConnection (url : String)
  | cannotReach (url : String)
  | disconnecting
  | invalidRegex (label : String) (pattern : String) (message : String)

/-- Literal text of each status line as written by the source (chalk color
decoration elided). -/
def render : StatusLine → String
  | .debug t => "[debug] " ++ t ++ "\n"
  | .connecting url asUser => "Connecting to " ++ url ++ asUser ++ "...\n"
  | .connected url => "Connected to " ++ url ++ "\n"
  | .reconnected url => "Reconnected to " ++ url ++ "\n"
  | .subscribeError m => "Subscribe error: " ++ m ++ "\n"
  | .watching t q => "  watching " ++ t ++ " (QoS " ++ toString q ++ ")\n"
  | .blank => "\n"
  | .errorLine m c en =>
      "Error: " ++ m ++ (match c with | some s => " [" ++ s ++ "]" | none => "")
        ++ (match en with | some s => " errno=" ++ s | none => "") ++ "\n"
  | .lostConnection url =>
      "Lost connection to " ++ url ++ "  retrying every 2s  (Ctrl+C to quit)\n"
  | .cannotReach url =>
      "Cannot reach " ++ url ++ "  retrying every 2s  (Ctrl+C to quit)\n"
  | .disconnecting => "\nDisconnecting...\n"
  | .invalidRegex label p m =>
      "Invalid " ++ label ++ " regex \"" ++ p ++ "\": " ++ m ++ "\n"

/-- Mutable run state of `connect()`: the four counters and flags declared
at lines 67-70, plus the observable process facts needed by the claims:
how many times `client.end` was invoked, whether an exit-0 callback is
pending with the engine, the exit code once `process.exit` ran, and the two
output channels. -/
structure RunState where
  messageCount : Nat
  reconnectCount : Nat
  everConnected : Bool
  offlineShown : Bool
  /-- number of `client.end(false, {}, cb)` invocations so far. -/
  endCalls : Nat
  /-- true once some end-callback `() => process.exit(0)` is registered. -/
  pendingExitZero : Bool
  /-- exit code after `process.exit` has run; the process is dead then. -/
  exited : Option Nat
  /-- message-output channel (stdout): chunks written by
  `process.stdout.write(output +. newline)`. -/
  stdoutChunks : List String
  /-- status-output channel (stderr). -/
  stderr : List StatusLine

/-- State at the start of the event loop: counters zero, flags false. -/
def initState : RunState :=
  { messageCount := 0, reconnectCount := 0, everConnected := false,
    offlineShown := false, endCalls := 0, pendingExitZero := false,
    exited := none, stdoutChunks := [], stderr := [] }

/-- Debug write `dbg(opts, msg)` of lines 8-12: writes to stderr only when
verbose. -/
def dbgS (cfg : Config) (s : RunState) (m : String) : RunState :=
  if cfg.verbose then { s with stderr := s.stderr ++ [.debug m] } else s

/-- Append one status line to the status channel. -/
def pushErr (s : RunState) (l : StatusLine) : RunState :=
  { s with stderr := s.stderr ++ [l] }

/-- Invocation `client.end(false, {}, () => process.exit(0))`: requests a
graceful disconnect and registers the exit-0 callback, which the engine
runs on confirmation. -/
def clientEnd (s : RunState) : RunState :=
  { s with endCalls := s.endCalls + 1, pendingExitZero := true }

/-- Events delivered to the handlers registered in `connect()`: the mqtt
client lifecycle events, the subscribe callback (as the engine answering
the batch subscribe), process signals, and the confirmation that runs the
callbacks registered via `client.end`. -/
inductive Event where
  | connectEv (sessionPresent : Bool) (returnCode : Nat)
  | reconnectEv
  | errorEv (message : String) (code : Option String) (errno : Option String)
      (stack : Option String)
  | closeEv
  | disconnectEv (reasonCode : Option Nat)
  | offlineEv
  | message (m : Msg)
  | subAckOk (granted : List (String × Nat))
  | subAckErr (message : String)
  | signal
  | endConfirmed

/-- Stderr lines of the subscribe-success callback loop (lines 112-116):
per granted topic a debug line and a watching line, then one blank write. -/
def grantedLines (cfg : Config) : List (String × Nat) → List StatusLine
  | [] => [.blank]
  | g :: rest =>
      (if cfg.verbose
        then [.debug ("subscribed     " ++ g.1 ++ " (QoS " ++ toString g.2 ++ ")")]
        else [])
      ++ [.watching g.1 g.2] ++ grantedLines cfg rest

/-- Rendering of the count limit for the limit-reached debug line. -/
def maxStr : Option Int → String
  | none => "Infinity"
  | some n => toString n

/-- One step of the controller: the handler the source registers for the
given event, run to completion.  Once `process.exit` has run the process is
dead and no handler runs.  Each branch is a line-by-line translation of the
corresponding handler of `src/subscriber.js` lines 91-200. -/
def handle (cfg : Config) (s : RunState) (e : Event) : RunState :=
  if s.exited.isSome then s
  else match e with
  | .connectEv sp rc =>
      let s1 := dbgS cfg s ("connect event  sessionPresent=" ++ toString sp
        ++ "  returnCode=" ++ toString rc)
      let s2 := if s1.everConnected
        then pushErr s1 (.reconnected cfg.brokerUrl)
        else pushErr s1 (.connected cfg.brokerUrl)
      let s3 := { s2 with everConnected := true, offlineShown := false }
      dbgS cfg s3 ("subscribing to: " ++ String.intercalate ", " cfg.topics)
  | .reconnectEv =>
      let s1 := { s with reconnectCount := s.reconnectCount + 1 }
      dbgS cfg s1 ("reconnect event  attempt #" ++ toString s1.reconnectCount)
  | .errorEv m c en stk =>
      let s1 := pushErr s (.errorLine m c en)
      match stk with
      | some t => dbgS cfg s1 t
      | none => s1
  | .closeEv => dbgS cfg s ("close event  (connection closed)")
  | .disconnectEv rc =>
      dbgS cfg s ("disconnect packet received  reasonCode="
        ++ (match rc with | some n => toString n | none => "n/a"))
  | .offlineEv =>
      let s1 := dbgS cfg s ("offline event  (network unreachable or broker gone)")
      if s1.offlineShown then s1
      else
        let s2 := { s1 with offlineShown := true }
        if s2.everConnected
          then pushErr s2 (.lostConnection cfg.brokerUrl)
          else pushErr s2 (.cannotReach cfg.brokerUrl)
  | .message m =>
      let s1 := dbgS cfg s ("message  topic=\"" ++ m.topic ++ "\"  size="
        ++ toString m.payload.length ++ "B  qos=" ++ toString m.qos
        ++ "  retain=" ++ toString m.retain)
      match filterMessage cfg m with
      | .droppedRetained => dbgS cfg s1 ("  -> dropped (retained)")
      | .droppedTopic => dbgS cfg s1 ("  -> dropped (topic filter)")
      | .droppedPayload => dbgS cfg s1 ("  -> dropped (payload filter)")
      | .pass =>
          let output := cfg.format m
          let s2 := { s1 with
            stdoutChunks := s1.stdoutChunks ++ [output ++ "\n"],
            messageCount := s1.messageCount + 1 }
          let s3 := dbgS cfg s2 ("  -> printed  (total: "
            ++ toString s2.messageCount ++ ")")
          if limitReached cfg.maxMessages s3.messageCount then
            clientEnd (dbgS cfg s3 ("message limit reached ("
              ++ maxStr cfg.maxMessages ++ "), disconnecting"))
          else s3
  | .subAckOk granted => { s with stderr := s.stderr ++ grantedLines cfg granted }
  | .subAckErr m =>
      let s1 := pushErr s (.subscribeError m)
      { s1 with exited := some 1 }
  | .signal =>
      let s1 := dbgS cfg s ("shutdown signal received")
      clientEnd (pushErr s1 .disconnecting)
  | .endConfirmed => if s.pendingExitZero then { s with exited := some 0 } else s

/-- Event loop: events are delivered strictly in order. -/
def run (cfg : Config) (s : RunState) (events : List Event) : RunState :=
  events.foldl (handle cfg) s

/-! ## Setup phase

The part of `connect()` that runs before `mqttConnect` is called, together
with the two builders `buildBrokerUrl` and `buildConnectOptions` and the
regex compilation `compileFilter`. -/

/-- Resolved options record handed to `connect(topics, opts)`, restricted
to the keys the subscriber reads.  String options mirror JavaScript
truthiness: `none` and `some ""` are both falsy. -/
structure Opts where
  host : Option String
  port : Option Nat
  username : Option String
  password : Option String
  tls : Bool
  ca : Option String
  cert : Option String
  key : Option String
  clientId : Option String
  qos : Option Nat
  filter : Option String
  payloadFilter : Option String
  retained : Bool
  count : Option Int
  verbose : Bool

/-- JavaScript truthiness of an optional string: absent and empty are
falsy. -/
def truthyS : Option String → Bool
  | none => false
  | some t => !(t = "")

/-- File system the TLS material is read from: path to contents. -/
def FS : Type := String → Option String

/-- Model of `await readFile(path)`: the contents, or a thrown error for a
missing file. -/
def readFileE (fs : FS) (p : String) : Except String String :=
  match fs p with
  | some c => Except.ok c
  | none => Except.error ("ENOENT: no such file or directory, open " ++ p)

/-- Connect options built by `buildConnectOptions` (lines 16-35). -/
structure ConnectOpts where
  clientId : String
  clean : Bool
  reconnectPeriod : Nat
  connectTimeout : Nat
  username : Option String
  password : Option String
  rejectUnauthorized : Bool
  ca : Option String
  cert : Option String
  key : Option String

/-- Conditional TLS-material read: `if (opts.x) connectOpts.x = await readFile(opts.x)`.
A falsy path leaves the field unset; a truthy one reads the file and a read
failure is thrown to the caller (there is no catch on this path). -/
def readOptional (fs : FS) (path : Option String) : Except String (Option String) :=
  match path with
  | none => Except.ok none
  | some p =>
      if p = "" then Except.ok none
      else (readFileE fs p).map some

/-- Translation of `buildConnectOptions(opts)` (lines 16-35).  `rand` stands
for the random client-id suffix.  The three reads happen in source order
ca, cert, key, and only inside the TLS branch. -/
def buildConnectOptions (fs : FS) (rand : String) (opts : Opts) :
    Except String ConnectOpts := do
  let clientId := match opts.clientId with
    | some c => if c = "" then "mqtt-tail-" ++ rand else c
    | none => "mqtt-tail-" ++ rand
  let base : ConnectOpts :=
    { clientId, clean := true, reconnectPeriod := 2000, connectTimeout := 10000,
      username := if truthyS opts.username then opts.username else none,
      password := if truthyS opts.password then opts.password else none,
      rejectUnauthorized := false, ca := none, cert := none, key := none }
  if opts.tls || truthyS opts.ca || truthyS opts.cert || truthyS opts.key then
    let ca ← readOptional fs opts.ca
    let cert ← readOptional fs opts.cert
    let key ← readOptional fs opts.key
    pure { base with rejectUnauthorized := true, ca, cert, key }
  else
    pure base

/-- Translation of `buildBrokerUrl(opts)` (lines 37-42), with JavaScript
falsiness of `opts.host` and `opts.port` made explicit. -/
def buildBrokerUrl (opts : Opts) : String :=
  let protocol := if opts.tls || truthyS opts.ca || truthyS opts.cert
      || truthyS opts.key then "mqtts" else "mqtt"
  let host := match opts.host with
    | some h => if h = "" then "localhost" else h
    | none => "localhost"
  let defaultPort := if protocol = "mqtts" then 8883 else 1883
  let port := match opts.port with
    | some p => if p = 0 then defaultPort else p
    | none => defaultPort
  protocol ++ "://" ++ host ++ ":" ++ toString port

/-- Regex engine: compiling a pattern yields a matcher or throws an error
message (the `new RegExp(pattern)` constructor). -/
def RegexEngine : Type := String → Except String (String → Bool)

/-- Translation of `compileFilter(pattern, label)` (lines 44-52): falsy
pattern yields no matcher; a compilation error is reported as the invalid
regex status line together with `process.exit(1)`, modelled as the error
case. -/
def compileFilter (re : RegexEngine) (pattern : Option String) (label : String) :
    Except StatusLine (Option (String → Bool)) :=
  match pattern with
  | none => Except.ok none
  | some p =>
      if p = "" then Except.ok none
      else match re p with
        | Except.ok f => Except.ok (some f)
        | Except.error m => Except.error (.invalidRegex label p m)

/-- Outcome of the setup phase of `connect()`: it reaches the
`mqttConnect` call with the built options and runtime configuration, or the
process exited via `process.exit`, or an exception escaped `connect`
uncaught (nothing in `connect` or in its caller in `src/index.js` catches
it). -/
inductive SetupResult where
  | ok (connectOpts : ConnectOpts) (cfg : Config)
  | exitedWith (code : Nat)
  | uncaught (err : String)

/-- Setup-phase observable output: the stderr writes made so far and the
result.  The setup phase never writes to stdout. -/
structure SetupOut where
  stderr : List StatusLine
  result : SetupResult

/-- Debug write during setup. -/
def dbgL (opts : Opts) (l : List StatusLine) (m : String) : List StatusLine :=
  if opts.verbose then l ++ [.debug m] else l

/-- Translation of the setup phase of `connect(topics, opts)` (lines
56-87), in source order: debug writes, `buildBrokerUrl`,
`buildConnectOptions` (whose thrown read errors propagate uncaught),
`compileFilter` for the topic and then the payload filter (each may exit
the process with code 1), the verbose diagnostics block, the Connecting
status line, and finally the `mqttConnect` call with the resulting runtime
configuration.  `fmt` is the external formatter. -/
def connectSetup (re : RegexEngine) (fs : FS) (fmt : Msg → String)
    (rand : String) (topics : List String) (opts : Opts) : SetupOut :=
  let e0 := dbgL opts [] ("building broker URL")
  let brokerUrl := buildBrokerUrl opts
  let e1 := dbgL opts e0 ("building connect options")
  match buildConnectOptions fs rand opts with
  | Except.error err => { stderr := e1, result := .uncaught err }
  | Except.ok connectOpts =>
    let qos := opts.qos.getD 0
    match compileFilter re opts.filter "--filter" with
    | Except.error line => { stderr := e1 ++ [line], result := .exitedWith 1 }
    | Except.ok topicFilter =>
      match compileFilter re opts.payloadFilter "--payload-filter" with
      | Except.error line => { stderr := e1 ++ [line], result := .exitedWith 1 }
      | Except.ok payloadFilter =>
        let maxMessages := mkMaxMessages opts.count
        let authLabel := match connectOpts.username with
          | some u => "user=\"" ++ u ++ "\""
          | none => "none"
        let e2 := dbgL opts e1 ("broker URL : " ++ brokerUrl)
        let e3 := dbgL opts e2 ("client ID  : " ++ connectOpts.clientId)
        let e4 := dbgL opts e3 ("auth       : " ++ authLabel)
        let e5 := dbgL opts e4 ("tls        : "
          ++ (if connectOpts.rejectUnauthorized then "yes" else "no"))
        let e6 := dbgL opts e5 ("topics     : " ++ String.intercalate ", " topics
          ++ " (QoS " ++ toString qos ++ ")")
        let e7 := dbgL opts e6 ("filters    : topic=" ++ (opts.filter.getD "none")
          ++ "  payload=" ++ (opts.payloadFilter.getD "none"))
        let e8 := dbgL opts e7 ("resolved opts (no password): <options record>")
        let e9 := dbgL opts e8 ("calling mqttConnect()...")
        let asUser := match connectOpts.username with
          | some u => " as " ++ u
          | none => ""
        let e10 := e9 ++ [.connecting brokerUrl asUser]
        { stderr := e10,
          result := .ok connectOpts
            { brokerUrl, topics, qos, retained := opts.retained,
              topicFilter, payloadFilter, maxMessages, format := fmt,
              verbose := opts.verbose } }

/-! ## Counting observers over the status channel -/

/-- Offline notices with the lost-connection wording. -/
def lostConnCount (l : List StatusLine) : Nat :=
  l.countP (fun x => match x with | .lostConnection _ => true | _ => false)

/-- Offline notices with the cannot-reach wording. -/
def cannotReachCount (l : List StatusLine) : Nat :=
  l.countP (fun x => match x with | .cannotReach _ => true | _ => false)

/-- Offline notices of either wording. -/
def offlineNoticeCount (l : List StatusLine) : Nat :=
  lostConnCount l + cannotReachCount l

/-- Connect statuses with the connected wording. -/
def connectedCount (l : List StatusLine) : Nat :=
  l.countP (fun x => match x with | .connected _ => true | _ => false)

/-- Connect statuses with the reconnected wording. -/
def reconnectedCount (l : List StatusLine) : Nat :=
  l.countP (fun x => match x with | .reconnected _ => true | _ => false)

/-- Connect statuses of either wording. -/
def connectNoticeCount (l : List StatusLine) : Nat :=
  connectedCount l + reconnectedCount l

/-- Disconnecting status lines written by the shutdown procedure. -/
def disconnectingCount (l : List StatusLine) : Nat :=
  l.countP (fun x => match x with | .disconnecting => true | _ => false)

/-- Subscribe-error lines. -/
def subscribeErrorCount (l : List StatusLine) : Nat :=
  l.countP (fun x => match x with | .subscribeError _ => true | _ => false)

/-- Debug lines. -/
def isDebugLine : StatusLine → Bool
  | .debug _ => true
  | _ => false

/-- Connection-loss signals. -/
def isOffline : Event → Bool
  | .offlineEv => true
  | _ => false

/-- Events occurring during an unbroken offline interval: loss signals and
retry attempts. -/
def isOfflineOrReconnect : Event → Bool
  | .offlineEv => true
  | .reconnectEv => true
  | _ => false

/-- Events of the connect/handshake phase before the subscribe answer:
everything except message delivery, signals, a subscribe error and an
end confirmation. -/
def handshakeEvent : Event → Bool
  | .message _ => false
  | .signal => false
  | .subAckErr _ => false
  | .endConfirmed => false
  | _ => true

/-- Stdout chunks a single step may produce: empty unless the event is an
eligible message processed by a live process, in which case the chunk is
the formatted message. -/
def stdoutDelta (cfg : Config) (s : RunState) (e : Event) : List String :=
  if s.exited.isSome then []
  else match e with
    | .message m =>
        if filterMessage cfg m = FilterOutcome.pass
          then [cfg.format m ++ "\n"] else []
    | _ => []

/-! ## Concrete instances for witnesses and counterexamples -/

/-- Configuration with count limit 1 and no filters. -/
def cfgOne : Config :=
  { brokerUrl := "mqtt://localhost:1883", topics := ["#"], qos := 0,
    retained := true, topicFilter := none, payloadFilter := none,
    maxMessages := some 1, format := fun m => m.payload, verbose := false }

/-- Sample eligible message. -/
def msgA : Msg := { topic := "a/b", payload := "hi", qos := 0, retain := false }

end MqttTail
namespace MqttTail

def cfgFilters : Config :=
  { cfgOne with
    retained := false
    maxMessages := none
    topicFilter := some (fun t => decide (t = "a/b"))
    payloadFilter := some (fun p => decide (p = "hi")) }

def cfgInf : Config := { cfgOne with maxMessages := none }

def pendingState : RunState := { initState with pendingExitZero := true }

def optsCa : Opts :=
  { host := none, port := none, username := none, password := none,
    tls := false, ca := some "ca.pem", cert := none, key := none,
    clientId := some "cid", qos := none, filter := none, payloadFilter := none,
    retained := true, count := none, verbose := false }

def optsFilter : Opts :=
  { optsCa with
    ca := none
    filter := some "(" }

/-- Options with only a client certificate path, absent from the file
system. -/
def optsCert : Opts :=
  { optsCa with
    ca := none
    cert := some "cert.pem" }

/-- Options with only a client key path, absent from the file system. -/
def optsKey : Opts :=
  { optsCa with
    ca := none
    key := some "key.pem" }

/-- Options with an invalid payload filter pattern and no TLS material. -/
def optsPayload : Opts :=
  { optsCa with
    ca := none
    payloadFilter := some "(" }

def connectOptsPlain : ConnectOpts :=
  { clientId := "cid", clean := true, reconnectPeriod := 2000,
    connectTimeout := 10000, username := none, password := none,
    rejectUnauthorized := false, ca := none, cert := none, key := none }

def fsEmpty : FS := fun _ => none

def reFail : RegexEngine := fun _ => Except.error ("bad")

def fmtPayload : Msg → String := fun m => m.payload

/-! ## Helper lemmas -/

@[simp] theorem dbgS_messageCount (cfg : Config) (s : RunState) (m : String) :
    (dbgS cfg s m).messageCount = s.messageCount := by
  unfold dbgS; split <;> rfl

@[simp] theorem dbgS_reconnectCount (cfg : Config) (s : RunState) (m : String) :
    (dbgS cfg s m).reconnectCount = s.reconnectCount := by
  unfold dbgS; split <;> rfl

@[simp] theorem dbgS_everConnected (cfg : Config) (s : RunState) (m : String) :
    (dbgS cfg s m).everConnected = s.everConnected := by
  unfold dbgS; split <;> rfl

@[simp] theorem dbgS_offlineShown (cfg : Config) (s : RunState) (m : String) :
    (dbgS cfg s m).offlineShown = s.offlineShown := by
  unfold dbgS; split <;> rfl

@[simp] theorem dbgS_endCalls (cfg : Config) (s : RunState) (m : String) :
    (dbgS cfg s m).endCalls = s.endCalls := by
  unfold dbgS; split <;> rfl

@[simp] theorem dbgS_pendingExitZero (cfg : Config) (s : RunState) (m : String) :
    (dbgS cfg s m).pendingExitZero = s.pendingExitZero := by
  unfold dbgS; split <;> rfl

@[simp] theorem dbgS_exited (cfg : Config) (s : RunState) (m : String) :
    (dbgS cfg s m).exited = s.exited := by
  unfold dbgS; split <;> rfl

@[simp] theorem dbgS_stdoutChunks (cfg : Config) (s : RunState) (m : String) :
    (dbgS cfg s m).stdoutChunks = s.stdoutChunks := by
  unfold dbgS; split <;> rfl

theorem dbgS_stderr_countP (cfg : Config) (s : RunState) (m : String)
    (p : StatusLine → Bool) (hp : p (.debug m) = false) :
    (dbgS cfg s m).stderr.countP p = s.stderr.countP p := by
  unfold dbgS; split
  · simp [List.countP_append, List.countP_cons, hp]
  · rfl

theorem handle_exited (cfg : Config) {s : RunState} (e : Event)
    (h : s.exited.isSome) : handle cfg s e = s := by
  unfold handle; simp [h]

theorem run_exited (cfg : Config) {s : RunState} (es : List Event)
    (h : s.exited.isSome) : run cfg s es = s := by
  induction es with
  | nil => rfl
  | cons e rest ih => simp [run, List.foldl_cons, handle_exited cfg e h]; exact ih

theorem run_append (cfg : Config) (s : RunState) (a b : List Event) :
    run cfg s (a ++ b) = run cfg (run cfg s a) b := by
  simp [run, List.foldl_append]

theorem run_cons (cfg : Config) (s : RunState) (e : Event) (es : List Event) :
    run cfg s (e :: es) = run cfg (handle cfg s e) es := rfl

theorem limitReached_mono (max : Option Int) (c : Nat)
    (h : limitReached max c = true) : limitReached max (c + 1) = true := by
  unfold limitReached at h ⊢
  cases max with
  | none => exact h
  | some n => simp at h ⊢; omega

theorem handle_message (cfg : Config) (s : RunState) (m : Msg)
    (h : s.exited = none) :
    (handle cfg s (.message m)).exited = none ∧
    (handle cfg s (.message m)).messageCount
      = s.messageCount + (if eligibleB cfg m then 1 else 0) ∧
    (handle cfg s (.message m)).stdoutChunks
      = s.stdoutChunks ++ (if eligibleB cfg m then [cfg.format m ++ "\n"] else []) ∧
    (handle cfg s (.message m)).everConnected = s.everConnected ∧
    (handle cfg s (.message m)).offlineShown = s.offlineShown ∧
    (handle cfg s (.message m)).reconnectCount = s.reconnectCount ∧
    (handle cfg s (.message m)).pendingExitZero
      = (if eligibleB cfg m && limitReached cfg.maxMessages (s.messageCount + 1)
          then true else s.pendingExitZero) ∧
    (handle cfg s (.message m)).endCalls
      = s.endCalls + (if eligibleB cfg m && limitReached cfg.maxMessages (s.messageCount + 1)
          then 1 else 0) := by
  have hs : s.exited.isSome = false := by simp [h]
  unfold handle
  rw [hs]
  simp only [Bool.false_eq_true, if_false]
  cases hf : filterMessage cfg m with
  | droppedRetained => simp [eligibleB, hf, h]
  | droppedTopic => simp [eligibleB, hf, h]
  | droppedPayload => simp [eligibleB, hf, h]
  | pass =>
      simp only [eligibleB, hf]
      by_cases hl : limitReached cfg.maxMessages (s.messageCount + 1) = true
      · simp [hl, clientEnd, h]
      · simp at hl
        simp [hl, h]

end MqttTail
namespace MqttTail

theorem run_messages (cfg : Config) (ms : List Msg) :
    ∀ (s : RunState), s.exited = none →
    s.pendingExitZero = limitReached cfg.maxMessages s.messageCount →
    (run cfg s (ms.map Event.message)).exited = none ∧
    (run cfg s (ms.map Event.message)).messageCount
      = s.messageCount + (ms.filter (eligibleB cfg)).length ∧
    (run cfg s (ms.map Event.message)).stdoutChunks
      = s.stdoutChunks ++ (ms.filter (eligibleB cfg)).map (fun m => cfg.format m ++ "\n") ∧
    (run cfg s (ms.map Event.message)).pendingExitZero
      = limitReached cfg.maxMessages (run cfg s (ms.map Event.message)).messageCount ∧
    (run cfg s (ms.map Event.message)).everConnected = s.everConnected ∧
    (run cfg s (ms.map Event.message)).offlineShown = s.offlineShown ∧
    (cfg.maxMessages = none →
      (run cfg s (ms.map Event.message)).endCalls = s.endCalls) := by
  induction ms with
  | nil => intro s h hp; simp [run, h, hp.symm]
  | cons m rest ih =>
      intro s h hp
      have hm := handle_message cfg s m h
      obtain ⟨h1, h2, h3, h4, h5, h6, h7, h8⟩ := hm
      rw [List.map_cons, run_cons]
      have hp2 : (handle cfg s (.message m)).pendingExitZero
          = limitReached cfg.maxMessages (handle cfg s (.message m)).messageCount := by
        rw [h7, h2]
        by_cases he : eligibleB cfg m = true
        · simp only [he, if_true, Bool.true_and]
          by_cases hl : limitReached cfg.maxMessages (s.messageCount + 1) = true
          · simp [hl]
          · simp only [Bool.not_eq_true] at hl
            rw [hl]
            simp only [Bool.false_eq_true, if_false, hp]
            by_cases hl0 : limitReached cfg.maxMessages s.messageCount = true
            · exact absurd (limitReached_mono _ _ hl0) (by simp [hl])
            · simp only [Bool.not_eq_true] at hl0; rw [hl0]
        · simp only [Bool.not_eq_true] at he
          simp [he, hp]
      have hrest := ih (handle cfg s (.message m)) h1 hp2
      obtain ⟨r1, r2, r3, r4, r5, r6, r7⟩ := hrest
      refine ⟨r1, ?_, ?_, r4, by rw [r5, h4], by rw [r6, h5], ?_⟩
      · rw [r2, h2]
        by_cases he : eligibleB cfg m = true <;> simp [he, List.filter_cons] <;> omega
      · rw [r3, h3]
        by_cases he : eligibleB cfg m = true <;> simp [he, List.filter_cons]
      · intro hnone
        rw [r7 hnone, h8]
        have : limitReached cfg.maxMessages (s.messageCount + 1) = false := by
          simp [limitReached, hnone]
        simp [this]

end MqttTail
namespace MqttTail

theorem handle_offline (cfg : Config) (s : RunState) (h : s.exited = none) :
    (handle cfg s .offlineEv).exited = none ∧
    (handle cfg s .offlineEv).everConnected = s.everConnected ∧
    (handle cfg s .offlineEv).messageCount = s.messageCount ∧
    (handle cfg s .offlineEv).stdoutChunks = s.stdoutChunks ∧
    (handle cfg s .offlineEv).offlineShown = true ∧
    offlineNoticeCount (handle cfg s .offlineEv).stderr
      = offlineNoticeCount s.stderr + (if s.offlineShown then 0 else 1) ∧
    (s.everConnected = true →
      cannotReachCount (handle cfg s .offlineEv).stderr = cannotReachCount s.stderr) ∧
    (s.everConnected = false →
      lostConnCount (handle cfg s .offlineEv).stderr = lostConnCount s.stderr) := by
  have hs : s.exited.isSome = false := by simp [h]
  unfold handle
  rw [hs]
  simp only [Bool.false_eq_true, if_false]
  by_cases ho : s.offlineShown = true
  · simp [ho, h, offlineNoticeCount, lostConnCount, cannotReachCount,
      dbgS_stderr_countP]
  · simp only [Bool.not_eq_true] at ho
    by_cases hc : s.everConnected = true
    · refine ⟨?_, ?_, ?_, ?_, ?_, ?_, ?_, ?_⟩ <;>
        simp [ho, hc, h, pushErr, offlineNoticeCount, lostConnCount,
          cannotReachCount, dbgS_stderr_countP, List.countP_append,
          List.countP_cons] <;> omega
    · simp only [Bool.not_eq_true] at hc
      refine ⟨?_, ?_, ?_, ?_, ?_, ?_, ?_, ?_⟩ <;>
        simp [ho, hc, h, pushErr, offlineNoticeCount, lostConnCount,
          cannotReachCount, dbgS_stderr_countP, List.countP_append,
          List.countP_cons] <;> omega

theorem handle_reconnect (cfg : Config) (s : RunState) (h : s.exited = none) :
    (handle cfg s .reconnectEv).exited = none ∧
    (handle cfg s .reconnectEv).everConnected = s.everConnected ∧
    (handle cfg s .reconnectEv).messageCount = s.messageCount ∧
    (handle cfg s .reconnectEv).stdoutChunks = s.stdoutChunks ∧
    (handle cfg s .reconnectEv).offlineShown = s.offlineShown ∧
    offlineNoticeCount (handle cfg s .reconnectEv).stderr = offlineNoticeCount s.stderr ∧
    cannotReachCount (handle cfg s .reconnectEv).stderr = cannotReachCount s.stderr ∧
    lostConnCount (handle cfg s .reconnectEv).stderr = lostConnCount s.stderr := by
  have hs : s.exited.isSome = false := by simp [h]
  unfold handle
  rw [hs]
  simp [h, offlineNoticeCount, lostConnCount, cannotReachCount, dbgS_stderr_countP]

theorem run_offline_interval (cfg : Config) (es : List Event) :
    ∀ (s : RunState), s.exited = none →
    (∀ e ∈ es, isOfflineOrReconnect e = true) →
    (run cfg s es).exited = none ∧
    (run cfg s es).everConnected = s.everConnected ∧
    (run cfg s es).messageCount = s.messageCount ∧
    (run cfg s es).stdoutChunks = s.stdoutChunks ∧
    (run cfg s es).offlineShown = (s.offlineShown || es.any isOffline) ∧
    offlineNoticeCount (run cfg s es).stderr
      = offlineNoticeCount s.stderr
        + (if s.offlineShown then 0 else if es.any isOffline then 1 else 0) ∧
    (s.everConnected = true →
      cannotReachCount (run cfg s es).stderr = cannotReachCount s.stderr) ∧
    (s.everConnected = false →
      lostConnCount (run cfg s es).stderr = lostConnCount s.stderr) := by
  induction es with
  | nil =>
      intro s h _
      simp [run, h]
  | cons e rest ih =>
      intro s h hall
      have he : isOfflineOrReconnect e = true := hall e (List.mem_cons_self e rest)
      have hrest : ∀ x ∈ rest, isOfflineOrReconnect x = true :=
        fun x hx => hall x (List.mem_cons_of_mem e hx)
      rw [run_cons]
      cases e with
      | offlineEv =>
          obtain ⟨h1, h2, h3, h4, h5, h6, h7, h8⟩ := handle_offline cfg s h
          obtain ⟨r1, r2, r3, r4, r5, r6, r7, r8⟩ := ih (handle cfg s .offlineEv) h1 hrest
          refine ⟨r1, by rw [r2, h2], by rw [r3, h3], by rw [r4, h4], ?_, ?_, ?_, ?_⟩
          · rw [r5, h5]; simp [isOffline]
          · rw [r6, h5, h6]
            simp only [List.any_cons, isOffline, Bool.true_or, if_true]
            by_cases ho : s.offlineShown = true <;> simp [ho]
          · intro hcon
            rw [r7 (by rw [h2]; exact hcon), h7 hcon]
          · intro hcon
            rw [r8 (by rw [h2]; exact hcon), h8 hcon]
      | reconnectEv =>
          obtain ⟨h1, h2, h3, h4, h5, h6, h7, h8⟩ := handle_reconnect cfg s h
          obtain ⟨r1, r2, r3, r4, r5, r6, r7, r8⟩ := ih (handle cfg s .reconnectEv) h1 hrest
          refine ⟨r1, by rw [r2, h2], by rw [r3, h3], by rw [r4, h4], ?_, ?_, ?_, ?_⟩
          · rw [r5, h5]; simp [isOffline]
          · rw [r6, h5, h6]; simp [isOffline]
          · intro hcon
            rw [r7 (by rw [h2]; exact hcon), h7]
          · intro hcon
            rw [r8 (by rw [h2]; exact hcon), h8]
      | connectEv sp rc => simp [isOfflineOrReconnect] at he
      | errorEv a b c d => simp [isOfflineOrReconnect] at he
      | closeEv => simp [isOfflineOrReconnect] at he
      | disconnectEv rc => simp [isOfflineOrReconnect] at he
      | message m => simp [isOfflineOrReconnect] at he
      | subAckOk g => simp [isOfflineOrReconnect] at he
      | subAckErr m => simp [isOfflineOrReconnect] at he
      | signal => simp [isOfflineOrReconnect] at he
      | endConfirmed => simp [isOfflineOrReconnect] at he

theorem handle_handshake (cfg : Config) (s : RunState) (e : Event)
    (h : s.exited = none) (he : handshakeEvent e = true) :
    (handle cfg s e).exited = none ∧
    (handle cfg s e).stdoutChunks = s.stdoutChunks := by
  have hs : s.exited.isSome = false := by simp [h]
  cases e with
  | connectEv sp rc =>
      unfold handle; rw [hs]
      by_cases hc : s.everConnected = true <;> simp [hc, h, pushErr]
  | reconnectEv => unfold handle; rw [hs]; simp [h]
  | errorEv a b c d =>
      unfold handle; rw [hs]
      cases d <;> simp [h, pushErr]
  | closeEv => unfold handle; rw [hs]; simp [h]
  | disconnectEv rc => unfold handle; rw [hs]; simp [h]
  | offlineEv =>
      obtain ⟨h1, _, _, h4, _⟩ := handle_offline cfg s h
      exact ⟨h1, h4⟩
  | subAckOk g => unfold handle; rw [hs]; simp [h]
  | message m => simp [handshakeEvent] at he
  | subAckErr m => simp [handshakeEvent] at he
  | signal => simp [handshakeEvent] at he
  | endConfirmed => simp [handshakeEvent] at he

theorem run_handshake (cfg : Config) (es : List Event) :
    ∀ (s : RunState), s.exited = none →
    (∀ e ∈ es, handshakeEvent e = true) →
    (run cfg s es).exited = none ∧
    (run cfg s es).stdoutChunks = s.stdoutChunks := by
  induction es with
  | nil => intro s h _; exact ⟨h, rfl⟩
  | cons e rest ih =>
      intro s h hall
      have he := hall e (List.mem_cons_self e rest)
      have ⟨h1, h2⟩ := handle_handshake cfg s e h he
      have ⟨r1, r2⟩ := ih (handle cfg s e) h1
        (fun x hx => hall x (List.mem_cons_of_mem e hx))
      rw [run_cons]
      exact ⟨r1, by rw [r2, h2]⟩



/-- Helper: when building the connect options throws, the setup phase ends
in the uncaught-exception outcome and the status channel holds debug lines
only — no error line was written by the program. -/
theorem connectSetup_uncaught (re : RegexEngine) (fs : FS) (fmt : Msg → String)
    (rand : String) (topics : List String) (opts : Opts) (e : String)
    (hbuild : buildConnectOptions fs rand opts = Except.error e) :
    (connectSetup re fs fmt rand topics opts).result = .uncaught e ∧
    (∀ l ∈ (connectSetup re fs fmt rand topics opts).stderr, isDebugLine l = true) := by
  unfold connectSetup
  rw [hbuild]
  refine ⟨rfl, ?_⟩
  intro l hl
  unfold dbgL at hl
  by_cases hv : opts.verbose = true
  · simp [hv] at hl
    rcases hl with h | h <;> subst h <;> rfl
  · simp only [Bool.not_eq_true] at hv
    simp [hv] at hl

/-! ## Claims -/

/-- Claim C1, counterexample to the claim as stated.  With maximum count
N = 1 and two eligible messages delivered before the disconnect
confirmation, the controller forwards two messages, not exactly one,
although it does exit with code 0: the message handler has no
shutting-down guard, so deliveries between the `client.end` request and
its confirmation are still forwarded. -/
theorem count_limit_exact_counterexample :
    cfgOne.maxMessages = some 1 ∧
    eligibleB cfgOne msgA = true ∧
    (run cfgOne initState [.message msgA, .message msgA, .endConfirmed]).stdoutChunks.length = 2 ∧
    (run cfgOne initState [.message msgA, .message msgA, .endConfirmed]).messageCount = 2 ∧
    (run cfgOne initState [.message msgA, .message msgA, .endConfirmed]).exited = some 0 ∧
    (2 : Nat) ≠ 1 :=
  ⟨rfl, rfl, rfl, rfl, rfl, by decide⟩

/-- Claim C1, amended: for every configured maximum N with N at least 1,
after each forward the count is compared against N and on reaching N a
graceful disconnect is requested; if exactly N eligible messages are
delivered before the disconnect confirmation, the controller forwards
exactly N messages to the message-output channel and the process exits
with code 0. -/
theorem count_limit_amended (cfg : Config) (N : Nat) (ms : List Msg)
    (hmax : cfg.maxMessages = some (N : Int)) (hN : 1 ≤ N)
    (helig : (ms.filter (eligibleB cfg)).length = N) :
    (run cfg initState (ms.map Event.message ++ [Event.endConfirmed])).messageCount = N ∧
    (run cfg initState (ms.map Event.message ++ [Event.endConfirmed])).stdoutChunks.length = N ∧
    (run cfg initState (ms.map Event.message ++ [Event.endConfirmed])).exited = some 0 := by
  have hp : initState.pendingExitZero = limitReached cfg.maxMessages initState.messageCount := by
    simp [initState, hmax, limitReached]
    omega
  obtain ⟨r1, r2, r3, r4, r5, r6, r7⟩ := run_messages cfg ms initState rfl hp
  rw [run_append]
  set sMid := run cfg initState (ms.map Event.message) with hsMid
  have hcount : sMid.messageCount = N := by rw [r2, helig]; simp [initState]
  have hpend : sMid.pendingExitZero = true := by
    rw [r4, hcount, hmax]
    simp [limitReached]
  have hs : sMid.exited.isSome = false := by rw [r1]; rfl
  have hstep : run cfg sMid [Event.endConfirmed] = { sMid with exited := some 0 } := by
    show handle cfg sMid Event.endConfirmed = _
    unfold handle
    rw [hs]
    simp [hpend]
  rw [hstep]
  refine ⟨hcount, ?_, rfl⟩
  show sMid.stdoutChunks.length = N
  rw [r3]
  simp [initState, helig]

/-- Witness for the amended claim C1 at N = 1 with one eligible message. -/
theorem count_limit_amended_witness :
    (run cfgOne initState ([msgA].map Event.message ++ [Event.endConfirmed])).messageCount = 1 ∧
    (run cfgOne initState ([msgA].map Event.message ++ [Event.endConfirmed])).exited = some 0 := by
  have h := count_limit_amended cfgOne 1 [msgA] rfl (by decide) rfl
  exact ⟨h.1, h.2.2⟩

/-- Claim C2: the filter pipeline evaluates the three stages in the fixed
order retained-drop, topic filter, payload filter, short-circuiting on the
first failing stage (the outcome constructor identifies the first failing
stage), and a delivered message is forwarded (written to stdout, count
incremented) if and only if it passes every configured stage. -/
theorem filter_pipeline_spec (cfg : Config) (m : Msg) (s : RunState)
    (h : s.exited = none) :
    (filterMessage cfg m = .droppedRetained ↔ retainedDrop cfg m = true) ∧
    (filterMessage cfg m = .droppedTopic
      ↔ (retainedDrop cfg m = false ∧ topicFilterFails cfg m = true)) ∧
    (filterMessage cfg m = .droppedPayload
      ↔ (retainedDrop cfg m = false ∧ topicFilterFails cfg m = false
          ∧ payloadFilterFails cfg m = true)) ∧
    (filterMessage cfg m = .pass
      ↔ (retainedDrop cfg m = false ∧ topicFilterFails cfg m = false
          ∧ payloadFilterFails cfg m = false)) ∧
    (handle cfg s (.message m)).stdoutChunks
      = s.stdoutChunks ++ (if filterMessage cfg m = .pass then [cfg.format m ++ "\n"] else []) ∧
    (handle cfg s (.message m)).messageCount
      = s.messageCount + (if filterMessage cfg m = .pass then 1 else 0) := by
  obtain ⟨h1, h2, h3, h4, h5, h6, h7, h8⟩ := handle_message cfg s m h
  refine ⟨?_, ?_, ?_, ?_, ?_, ?_⟩
  · unfold filterMessage
    by_cases hr : retainedDrop cfg m = true <;>
      by_cases ht : topicFilterFails cfg m = true <;>
      by_cases hpp : payloadFilterFails cfg m = true <;>
      simp [hr, ht, hpp]
  · unfold filterMessage
    by_cases hr : retainedDrop cfg m = true <;>
      by_cases ht : topicFilterFails cfg m = true <;>
      by_cases hpp : payloadFilterFails cfg m = true <;>
      simp [hr, ht, hpp]
  · unfold filterMessage
    by_cases hr : retainedDrop cfg m = true <;>
      by_cases ht : topicFilterFails cfg m = true <;>
      by_cases hpp : payloadFilterFails cfg m = true <;>
      simp [hr, ht, hpp]
  · unfold filterMessage
    by_cases hr : retainedDrop cfg m = true <;>
      by_cases ht : topicFilterFails cfg m = true <;>
      by_cases hpp : payloadFilterFails cfg m = true <;>
      simp [hr, ht, hpp]
  · rw [h3]
    by_cases hpass : filterMessage cfg m = FilterOutcome.pass <;>
      simp [eligibleB, hpass]
  · rw [h2]
    by_cases hpass : filterMessage cfg m = FilterOutcome.pass <;>
      simp [eligibleB, hpass]

/-- Witness for claim C2: a concrete configuration with both filters
configured and an eligible message, evaluated through the handler. -/
theorem filter_pipeline_spec_witness :
    (handle cfgFilters initState (.message msgA)).stdoutChunks
      = initState.stdoutChunks
        ++ (if filterMessage cfgFilters msgA = .pass
            then [cfgFilters.format msgA ++ "\n"] else []) :=
  (filter_pipeline_spec cfgFilters msgA initState rfl).2.2.2.2.1

/-- Claim C3, counterexample to the claim as stated.  Two shutdown
signals in immediate succession invoke the graceful disconnect twice and
write the Disconnecting status line twice: the `shutdown` function has no
shutting-down flag, so the second signal is not a no-op. -/
theorem shutdown_idempotence_counterexample :
    (run cfgOne initState [.signal, .signal, .endConfirmed]).endCalls = 2 ∧
    disconnectingCount (run cfgOne initState [.signal, .signal, .endConfirmed]).stderr = 2 ∧
    (run cfgOne initState [.signal, .signal, .endConfirmed]).exited = some 0 ∧
    (2 : Nat) ≠ 1 :=
  ⟨rfl, rfl, rfl, by decide⟩

/-- Claim C3, amended: two shutdown signals in immediate succession
request the graceful disconnect twice and emit the shutdown status twice
(there is no shutting-down flag), but the process still exits exactly once
with code 0 — the first confirmation callback exits the process and every
later event is a no-op. -/
theorem shutdown_idempotence_amended (cfg : Config) :
    (run cfg initState [.signal, .signal, .endConfirmed]).endCalls = 2 ∧
    disconnectingCount (run cfg initState [.signal, .signal, .endConfirmed]).stderr = 2 ∧
    (run cfg initState [.signal, .signal, .endConfirmed]).exited = some 0 ∧
    (∀ e, handle cfg (run cfg initState [.signal, .signal, .endConfirmed]) e
      = run cfg initState [.signal, .signal, .endConfirmed]) := by
  have hmain : (run cfg initState [.signal, .signal, .endConfirmed]).endCalls = 2 ∧
      disconnectingCount (run cfg initState [.signal, .signal, .endConfirmed]).stderr = 2 ∧
      (run cfg initState [.signal, .signal, .endConfirmed]).exited = some 0 := by
    cases hv : cfg.verbose <;>
      simp [run, handle, dbgS, hv, pushErr, clientEnd, initState,
        disconnectingCount, List.countP_cons, List.countP_append, List.countP_nil]
  refine ⟨hmain.1, hmain.2.1, hmain.2.2, ?_⟩
  intro e
  exact handle_exited cfg e (by rw [hmain.2.2]; rfl)

/-- Claim C4, counterexample to the claim as stated.  With maximum count
1, after the first forwarded message shutdown has been initiated (a
disconnect is requested), yet a second delivered message is still
processed and forwarded, making messages-forwarded exceed the configured
maximum. -/
theorem shutdown_guard_counterexample :
    (run cfgOne initState [.message msgA]).pendingExitZero = true ∧
    (run cfgOne initState [.message msgA]).endCalls = 1 ∧
    (run cfgOne initState [.message msgA, .message msgA]).messageCount = 2 ∧
    (run cfgOne initState [.message msgA, .message msgA]).stdoutChunks.length = 2 ∧
    cfgOne.maxMessages = some 1 ∧
    ¬((2 : Nat) ≤ 1) :=
  ⟨rfl, rfl, rfl, rfl, rfl, by decide⟩

/-- Claim C4, amended: the message handler has no shutting-down guard,
so after a graceful disconnect has been requested but before the process
has exited, delivered eligible messages are still processed and forwarded;
only once `process.exit` has run are no further events processed. -/
theorem shutdown_guard_amended (cfg : Config) (s : RunState) (m : Msg)
    (h1 : s.exited = none) (h2 : s.pendingExitZero = true)
    (h3 : eligibleB cfg m = true) :
    (handle cfg s (.message m)).messageCount = s.messageCount + 1 ∧
    (handle cfg s (.message m)).stdoutChunks = s.stdoutChunks ++ [cfg.format m ++ "\n"] ∧
    (∀ (s2 : RunState) (e : Event), s2.exited.isSome = true → handle cfg s2 e = s2) := by
  obtain ⟨_, hc, ho, _⟩ := handle_message cfg s m h1
  refine ⟨by rw [hc]; simp [h3], by rw [ho]; simp [h3], ?_⟩
  intro s2 e hex
  exact handle_exited cfg e hex

/-- Witness for the amended claim C4 at a state with a pending disconnect. -/
theorem shutdown_guard_amended_witness :
    (handle cfgOne pendingState (.message msgA)).messageCount
      = pendingState.messageCount + 1 :=
  (shutdown_guard_amended cfgOne pendingState msgA rfl rfl rfl).1

/-- Claim C5: for every unbroken offline interval (a run of loss signals
and reconnect attempts entered with the offline-notice flag clear),
exactly one offline notice is emitted if at least one loss signal occurs,
none otherwise, regardless of how many loss signals or reconnect attempts
occur; the wording is cannot-reach before the first successful connect and
lost-connection after it, and the flag resets on the transition back to
connected. -/
theorem offline_notice_once (cfg : Config) (s : RunState) (es : List Event)
    (h1 : s.exited = none) (h2 : s.offlineShown = false)
    (h3 : ∀ e ∈ es, isOfflineOrReconnect e = true) :
    offlineNoticeCount (run cfg s es).stderr
      = offlineNoticeCount s.stderr + (if es.any isOffline then 1 else 0) ∧
    (run cfg s es).offlineShown = es.any isOffline ∧
    (s.everConnected = true →
      cannotReachCount (run cfg s es).stderr = cannotReachCount s.stderr) ∧
    (s.everConnected = false →
      lostConnCount (run cfg s es).stderr = lostConnCount s.stderr) ∧
    (∀ (s2 : RunState) (sp : Bool) (rc : Nat), s2.exited = none →
      (handle cfg s2 (.connectEv sp rc)).offlineShown = false) := by
  obtain ⟨r1, r2, r3, r4, r5, r6, r7, r8⟩ := run_offline_interval cfg es s h1 h3
  refine ⟨by rw [r6, h2]; simp, by rw [r5, h2]; simp, r7, r8, ?_⟩
  intro s2 sp rc h
  have hs : s2.exited.isSome = false := by simp [h]
  unfold handle
  rw [hs]
  by_cases hc : s2.everConnected = true <;> simp [hc, pushErr]

/-- Witness for claim C5 on a concrete offline interval with two loss
signals and one reconnect attempt. -/
theorem offline_notice_once_witness :
    offlineNoticeCount
        (run cfgOne initState [.offlineEv, .reconnectEv, .offlineEv]).stderr
      = offlineNoticeCount initState.stderr
        + (if [Event.offlineEv, Event.reconnectEv, Event.offlineEv].any isOffline
            then 1 else 0) :=
  (offline_notice_once cfgOne initState [.offlineEv, .reconnectEv, .offlineEv]
    rfl rfl (by intro e he; simp at he; rcases he with h | h | h <;> subst h <;> rfl)).1

/-- Claim C6: every transition into the connected state emits exactly one
connect status on the status channel — reconnected if has-ever-connected
was already true, connected otherwise — then sets has-ever-connected;
since the flag starts false, the very first transition can never emit
reconnected. -/
theorem connect_status_unique (cfg : Config) (s : RunState) (sp : Bool) (rc : Nat)
    (h : s.exited = none) :
    connectNoticeCount (handle cfg s (.connectEv sp rc)).stderr
      = connectNoticeCount s.stderr + 1 ∧
    reconnectedCount (handle cfg s (.connectEv sp rc)).stderr
      = reconnectedCount s.stderr + (if s.everConnected then 1 else 0) ∧
    connectedCount (handle cfg s (.connectEv sp rc)).stderr
      = connectedCount s.stderr + (if s.everConnected then 0 else 1) ∧
    (handle cfg s (.connectEv sp rc)).everConnected = true ∧
    initState.everConnected = false := by
  have hs : s.exited.isSome = false := by simp [h]
  unfold handle
  rw [hs]
  by_cases hc : s.everConnected = true <;>
    refine ⟨?_, ?_, ?_, ?_, rfl⟩ <;>
    simp [hc, pushErr, connectNoticeCount, connectedCount, reconnectedCount,
      dbgS_stderr_countP, List.countP_append, List.countP_cons] <;> omega

/-- Witness for claim C6 at the initial state. -/
theorem connect_status_unique_witness :
    connectNoticeCount (handle cfgOne initState (.connectEv false 0)).stderr
      = connectNoticeCount initState.stderr + 1 :=
  (connect_status_unique cfgOne initState false 0 rfl).1

/-- Claim C7: if the batch subscribe request fails after a successful
handshake, exactly one subscribe-error line is reported on the status
channel and the process terminates with exit code 1 immediately (not
retried), with no messages forwarded; later events are not processed. -/
theorem subscribe_error_fatal (cfg : Config) (pre rest : List Event) (emsg : String)
    (h : ∀ e ∈ pre, handshakeEvent e = true) :
    (run cfg initState (pre ++ Event.subAckErr emsg :: rest)).exited = some 1 ∧
    (run cfg initState (pre ++ Event.subAckErr emsg :: rest)).stdoutChunks = [] ∧
    subscribeErrorCount (run cfg initState (pre ++ Event.subAckErr emsg :: rest)).stderr
      = subscribeErrorCount (run cfg initState pre).stderr + 1 := by
  obtain ⟨p1, p2⟩ := run_handshake cfg pre initState rfl h
  rw [run_append]
  set sPre := run cfg initState pre with hsPre
  have hs : sPre.exited.isSome = false := by rw [p1]; rfl
  have hstep : handle cfg sPre (Event.subAckErr emsg)
      = { sPre with
          stderr := sPre.stderr ++ [.subscribeError emsg]
          exited := some 1 } := by
    unfold handle
    rw [hs]
    simp [pushErr]
  rw [run_cons, hstep]
  have hrest : run cfg { sPre with
        stderr := sPre.stderr ++ [.subscribeError emsg]
        exited := some 1 } rest
      = { sPre with
          stderr := sPre.stderr ++ [.subscribeError emsg]
          exited := some 1 } :=
    run_exited cfg rest rfl
  rw [hrest]
  refine ⟨rfl, ?_, ?_⟩
  · show sPre.stdoutChunks = []
    rw [p2]
    rfl
  · show subscribeErrorCount (sPre.stderr ++ [.subscribeError emsg]) = _
    simp [subscribeErrorCount, List.countP_append, List.countP_cons]

/-- Witness for claim C7: handshake, then a failing subscribe answer,
then a message that is no longer processed. -/
theorem subscribe_error_fatal_witness :
    (run cfgOne initState ([Event.connectEv true 0]
        ++ Event.subAckErr "not authorized" :: [Event.message msgA])).exited = some 1 ∧
    (run cfgOne initState ([Event.connectEv true 0]
        ++ Event.subAckErr "not authorized" :: [Event.message msgA])).stdoutChunks = [] := by
  have h := subscribe_error_fatal cfgOne [Event.connectEv true 0] [Event.message msgA]
    "not authorized" (by intro e he; simp at he; subst he; rfl)
  exact ⟨h.1, h.2.1⟩

/-- Claim C8, counterexample to the claim as stated.  An unreadable CA
file is a setup error that is not reported as an error line on the status
channel and does not exit through `process.exit(1)`: the `readFile`
rejection propagates out of `buildConnectOptions` and `connect` uncaught
(nothing on this path catches it), with an empty status channel. -/
theorem tls_uncaught_counterexample :
    (connectSetup reFail fsEmpty fmtPayload "r" ["#"] optsCa).result
      = .uncaught ("ENOENT: no such file or directory, open ca.pem") ∧
    (connectSetup reFail fsEmpty fmtPayload "r" ["#"] optsCa).stderr = [] :=
  ⟨rfl, rfl⟩

/-- Claim C8, amended: a syntactically invalid topic or payload filter
pattern is reported as an error line on the status channel and exits the
process with code 1 before any connect attempt; an unreadable TLS material
file — CA, certificate or key, each read in source order with the earlier
reads succeeding — also aborts setup before any connect attempt, but
through an exception that escapes the program uncaught, with no
program-written error line (only debug lines can precede it). -/
theorem setup_error_amended :
    (∀ (re : RegexEngine) (fs : FS) (fmt : Msg → String) (rand : String)
        (topics : List String) (opts : Opts) (p : String),
      opts.ca = some p → p ≠ "" → fs p = none →
      (connectSetup re fs fmt rand topics opts).result
        = .uncaught ("ENOENT: no such file or directory, open " ++ p) ∧
      (∀ l ∈ (connectSetup re fs fmt rand topics opts).stderr, isDebugLine l = true)) ∧
    (∀ (re : RegexEngine) (fs : FS) (fmt : Msg → String) (rand : String)
        (topics : List String) (opts : Opts) (p : String) (a : Option String),
      readOptional fs opts.ca = Except.ok a →
      opts.cert = some p → p ≠ "" → fs p = none →
      (connectSetup re fs fmt rand topics opts).result
        = .uncaught ("ENOENT: no such file or directory, open " ++ p) ∧
      (∀ l ∈ (connectSetup re fs fmt rand topics opts).stderr, isDebugLine l = true)) ∧
    (∀ (re : RegexEngine) (fs : FS) (fmt : Msg → String) (rand : String)
        (topics : List String) (opts : Opts) (p : String) (a b : Option String),
      readOptional fs opts.ca = Except.ok a →
      readOptional fs opts.cert = Except.ok b →
      opts.key = some p → p ≠ "" → fs p = none →
      (connectSetup re fs fmt rand topics opts).result
        = .uncaught ("ENOENT: no such file or directory, open " ++ p) ∧
      (∀ l ∈ (connectSetup re fs fmt rand topics opts).stderr, isDebugLine l = true)) ∧
    (∀ (re : RegexEngine) (fs : FS) (fmt : Msg → String) (rand : String)
        (topics : List String) (opts : Opts) (pat emsg : String) (c : ConnectOpts),
      buildConnectOptions fs rand opts = Except.ok c →
      opts.filter = some pat → pat ≠ "" → re pat = Except.error emsg →
      (connectSetup re fs fmt rand topics opts).result = .exitedWith 1 ∧
      (connectSetup re fs fmt rand topics opts).stderr
        = dbgL opts (dbgL opts [] ("building broker URL")) ("building connect options")
          ++ [.invalidRegex "--filter" pat emsg]) ∧
    (∀ (re : RegexEngine) (fs : FS) (fmt : Msg → String) (rand : String)
        (topics : List String) (opts : Opts) (pat emsg : String) (c : ConnectOpts)
        (tf : Option (String → Bool)),
      buildConnectOptions fs rand opts = Except.ok c →
      compileFilter re opts.filter "--filter" = Except.ok tf →
      opts.payloadFilter = some pat → pat ≠ "" → re pat = Except.error emsg →
      (connectSetup re fs fmt rand topics opts).result = .exitedWith 1 ∧
      (connectSetup re fs fmt rand topics opts).stderr
        = dbgL opts (dbgL opts [] ("building broker URL")) ("building connect options")
          ++ [.invalidRegex "--payload-filter" pat emsg]) := by
  refine ⟨?_, ?_, ?_, ?_, ?_⟩
  · intro re fs fmt rand topics opts p hca hp hfs
    have htr : truthyS opts.ca = true := by
      rw [hca]
      simp [truthyS, hp]
    have hread : readOptional fs opts.ca
        = Except.error ("ENOENT: no such file or directory, open " ++ p) := by
      rw [hca]
      simp [readOptional, hp, readFileE, hfs, Except.map]
    have hbuild : buildConnectOptions fs rand opts
        = Except.error ("ENOENT: no such file or directory, open " ++ p) := by
      unfold buildConnectOptions
      rw [htr]
      simp only [Bool.or_true, Bool.true_or, if_true]
      rw [hread]
      rfl
    exact connectSetup_uncaught re fs fmt rand topics opts _ hbuild
  · intro re fs fmt rand topics opts p a hca hcert hp hfs
    have htr : truthyS opts.cert = true := by
      rw [hcert]
      simp [truthyS, hp]
    have hread : readOptional fs opts.cert
        = Except.error ("ENOENT: no such file or directory, open " ++ p) := by
      rw [hcert]
      simp [readOptional, hp, readFileE, hfs, Except.map]
    have hbuild : buildConnectOptions fs rand opts
        = Except.error ("ENOENT: no such file or directory, open " ++ p) := by
      unfold buildConnectOptions
      rw [htr]
      simp only [Bool.or_true, Bool.true_or, if_true]
      rw [hca, hread]
      rfl
    exact connectSetup_uncaught re fs fmt rand topics opts _ hbuild
  · intro re fs fmt rand topics opts p a b hca hcert hkey hp hfs
    have htr : truthyS opts.key = true := by
      rw [hkey]
      simp [truthyS, hp]
    have hread : readOptional fs opts.key
        = Except.error ("ENOENT: no such file or directory, open " ++ p) := by
      rw [hkey]
      simp [readOptional, hp, readFileE, hfs, Except.map]
    have hbuild : buildConnectOptions fs rand opts
        = Except.error ("ENOENT: no such file or directory, open " ++ p) := by
      unfold buildConnectOptions
      rw [htr]
      simp only [Bool.or_true, Bool.true_or, if_true]
      rw [hca, hcert, hread]
      rfl
    exact connectSetup_uncaught re fs fmt rand topics opts _ hbuild
  · intro re fs fmt rand topics opts pat emsg c hbuild hfil hpat hre
    have hcf : compileFilter re opts.filter "--filter"
        = Except.error (.invalidRegex "--filter" pat emsg) := by
      rw [hfil]
      simp [compileFilter, hpat, hre]
    unfold connectSetup
    rw [hbuild, hcf]
    exact ⟨rfl, rfl⟩
  · intro re fs fmt rand topics opts pat emsg c tf hbuild hcfok hpf hpat hre
    have hcf2 : compileFilter re opts.payloadFilter "--payload-filter"
        = Except.error (.invalidRegex "--payload-filter" pat emsg) := by
      rw [hpf]
      simp [compileFilter, hpat, hre]
    unfold connectSetup
    rw [hbuild, hcfok, hcf2]
    exact ⟨rfl, rfl⟩

/-- Witness for the amended claim C8 on a missing CA file, a missing
certificate file, a missing key file, an invalid topic filter pattern and
an invalid payload filter pattern. -/
theorem setup_error_amended_witness :
    (connectSetup reFail fsEmpty fmtPayload "r" ["#"] optsCa).result
      = .uncaught ("ENOENT: no such file or directory, open " ++ "ca.pem") ∧
    (connectSetup reFail fsEmpty fmtPayload "r" ["#"] optsCert).result
      = .uncaught ("ENOENT: no such file or directory, open " ++ "cert.pem") ∧
    (connectSetup reFail fsEmpty fmtPayload "r" ["#"] optsKey).result
      = .uncaught ("ENOENT: no such file or directory, open " ++ "key.pem") ∧
    (connectSetup reFail fsEmpty fmtPayload "r" ["#"] optsFilter).result
      = .exitedWith 1 ∧
    (connectSetup reFail fsEmpty fmtPayload "r" ["#"] optsPayload).result
      = .exitedWith 1 := by
  refine ⟨?_, ?_, ?_, ?_, ?_⟩
  · exact (setup_error_amended.1 reFail fsEmpty fmtPayload "r" ["#"] optsCa "ca.pem"
      rfl (by decide) rfl).1
  · exact (setup_error_amended.2.1 reFail fsEmpty fmtPayload "r" ["#"] optsCert "cert.pem"
      none rfl rfl (by decide) rfl).1
  · exact (setup_error_amended.2.2.1 reFail fsEmpty fmtPayload "r" ["#"] optsKey "key.pem"
      none none rfl rfl rfl (by decide) rfl).1
  · exact (setup_error_amended.2.2.2.1 reFail fsEmpty fmtPayload "r" ["#"] optsFilter "("
      "bad" connectOptsPlain rfl rfl (by decide) rfl).1
  · exact (setup_error_amended.2.2.2.2 reFail fsEmpty fmtPayload "r" ["#"] optsPayload "("
      "bad" connectOptsPlain none rfl rfl rfl (by decide) rfl).1

/-- Helper: the subscribe-callback stderr lines do not depend on the
formatter. -/
theorem grantedLines_format (cfg : Config) (g : Msg → String)
    (gr : List (String × Nat)) :
    grantedLines { cfg with format := g } gr = grantedLines cfg gr := by
  induction gr with
  | nil => rfl
  | cons x rest ih => simp [grantedLines, ih]

/-- Claim C9: output channel separation.  In every step, the
message-output channel grows exactly by the formatted text of a forwarded
eligible message (and is untouched otherwise), and the status channel is
independent of the formatter — replacing the formatter changes nothing on
stderr, so no message-derived text reaches the status channel and no
status text reaches the message channel. -/
theorem channel_separation (cfg : Config) (g : Msg → String) (s : RunState) (e : Event) :
    (handle cfg s e).stdoutChunks = s.stdoutChunks ++ stdoutDelta cfg s e ∧
    (handle { cfg with format := g } s e).stderr = (handle cfg s e).stderr := by
  by_cases hex : s.exited.isSome = true
  · refine ⟨?_, ?_⟩
    · rw [handle_exited cfg e hex]
      simp [stdoutDelta, hex]
    · rw [handle_exited { cfg with format := g } e hex, handle_exited cfg e hex]
  · simp only [Bool.not_eq_true] at hex
    have hnone : s.exited = none := Option.not_isSome_iff_eq_none.mp (by simp [hex])
    cases e with
    | message m =>
        refine ⟨?_, ?_⟩
        · obtain ⟨_, _, h3, _⟩ := handle_message cfg s m hnone
          rw [h3]
          by_cases hpass : filterMessage cfg m = FilterOutcome.pass <;>
            simp [stdoutDelta, hex, hpass, eligibleB]
        · have hsame : filterMessage { cfg with format := g } m
              = filterMessage cfg m := rfl
          simp only [handle, hex, Bool.false_eq_true, if_false, hsame]
          cases hf : filterMessage cfg m <;>
            by_cases hv : cfg.verbose <;>
            simp only [hf, dbgS, hv, if_true, Bool.false_eq_true, if_false,
              clientEnd, pushErr] <;>
            by_cases hl : limitReached cfg.maxMessages (s.messageCount + 1) <;>
            simp [hl]
    | connectEv sp rc =>
        refine ⟨?_, ?_⟩ <;>
          (by_cases hv : cfg.verbose <;> by_cases hc : s.everConnected <;>
            simp [handle, hex, hv, hc, dbgS, pushErr, stdoutDelta])
    | reconnectEv =>
        refine ⟨?_, ?_⟩ <;>
          (by_cases hv : cfg.verbose <;>
            simp [handle, hex, hv, dbgS, stdoutDelta])
    | errorEv m2 c2 en2 stk2 =>
        refine ⟨?_, ?_⟩ <;>
          (cases stk2 <;> by_cases hv : cfg.verbose <;>
            simp [handle, hex, hv, dbgS, pushErr, stdoutDelta])
    | closeEv =>
        refine ⟨?_, ?_⟩ <;>
          (by_cases hv : cfg.verbose <;>
            simp [handle, hex, hv, dbgS, stdoutDelta])
    | disconnectEv rc =>
        refine ⟨?_, ?_⟩ <;>
          (by_cases hv : cfg.verbose <;>
            simp [handle, hex, hv, dbgS, stdoutDelta])
    | offlineEv =>
        refine ⟨?_, ?_⟩ <;>
          (by_cases hv : cfg.verbose <;> by_cases ho : s.offlineShown <;>
            by_cases hc : s.everConnected <;>
            simp [handle, hex, hv, ho, hc, dbgS, pushErr, stdoutDelta])
    | subAckOk gr =>
        refine ⟨?_, ?_⟩ <;> simp [handle, hex, stdoutDelta, grantedLines_format]
    | subAckErr m2 =>
        refine ⟨?_, ?_⟩ <;> simp [handle, hex, pushErr, stdoutDelta]
    | signal =>
        refine ⟨?_, ?_⟩ <;>
          (by_cases hv : cfg.verbose <;>
            simp [handle, hex, hv, dbgS, pushErr, clientEnd, stdoutDelta])
    | endConfirmed =>
        refine ⟨?_, ?_⟩ <;>
          (by_cases hp : s.pendingExitZero <;>
            simp [handle, hex, hp, stdoutDelta])

/-- Claim C10: an absent or zero configured count yields an infinite
limit — the comparison against the maximum is never true, the count-limit
termination never triggers (no disconnect requested, no exit), and every
eligible delivered message keeps being forwarded without bound; count 0
does not mean exit immediately. -/
theorem infinite_count :
    mkMaxMessages none = none ∧
    mkMaxMessages (some 0) = none ∧
    (∀ c, limitReached none c = false) ∧
    (∀ (cfg : Config) (ms : List Msg), cfg.maxMessages = none →
      (run cfg initState (ms.map Event.message)).exited = none ∧
      (run cfg initState (ms.map Event.message)).messageCount
        = (ms.filter (eligibleB cfg)).length ∧
      (run cfg initState (ms.map Event.message)).endCalls = 0 ∧
      (run cfg initState (ms.map Event.message)).pendingExitZero = false) := by
  refine ⟨rfl, rfl, fun c => rfl, ?_⟩
  intro cfg ms hnone
  have hp : initState.pendingExitZero = limitReached cfg.maxMessages initState.messageCount := by
    simp [initState, hnone, limitReached]
  obtain ⟨r1, r2, r3, r4, r5, r6, r7⟩ := run_messages cfg ms initState rfl hp
  refine ⟨r1, by rw [r2]; simp [initState], by rw [r7 hnone]; rfl,
    by rw [r4, hnone]; rfl⟩

/-- Witness for claim C10 with two eligible messages and no limit. -/
theorem infinite_count_witness :
    (run cfgInf initState ([msgA, msgA].map Event.message)).messageCount
      = ([msgA, msgA].filter (eligibleB cfgInf)).length ∧
    (run cfgInf initState ([msgA, msgA].map Event.message)).endCalls = 0 := by
  have h := infinite_count.2.2.2 cfgInf [msgA, msgA] rfl
  exact ⟨h.2.1, h.2.2.1⟩

end MqttTail
